import Mathlib

/-!
Shallow embedding of `src/audio/wav_to_pcm.hpp` (KalaKit/KalaHeaders):
the WAV-container to raw-PCM decoder `Convert_WAV` together with its
result taxonomy, allow-lists and the linear scan for the `data` chunk.

Modelling conventions:
* a loaded file is a `List Nat` of byte values;
* every fixed-offset read of the C++ code is an `Option`-valued read
  (`bytesAt`): a read past the end of the loaded buffer — undefined
  behaviour in the C++ — makes the whole decode evaluate to `none`,
  while every defined outcome is `some (result, outSlot)`;
* the caller-supplied output slot is threaded explicitly: the returned
  `PCMData_WAV` is the value the slot holds after the call;
* the filesystem preconditions (existence, regular file, extension,
  permissions, open errno) are abstracted into an `FSFile` record,
  `none` standing for a non-existing path.
-/

namespace KalaHeaders

/-- Result codes of the WAV to PCM conversion, one constructor per
enumerator of `ConvertResult_WAV` in `wav_to_pcm.hpp`. -/
inductive ConvertResult_WAV where
  | RESULT_SUCCESS
  | RESULT_FILE_NOT_FOUND
  | RESULT_INVALID_EXTENSION
  | RESULT_UNAUTHORIZED_READ
  | RESULT_FILE_LOCKED
  | RESULT_UNKNOWN_READ_ERROR
  | RESULT_FILE_EMPTY
  | RESULT_UNSUPPORTED_FILE_SIZE
  | RESULT_INVALID_RIFF_MAGIC
  | RESULT_INVALID_WAVE_MAGIC
  | RESULT_INVALID_FMT_CHUNK
  | RESULT_INVALID_FORMAT_TYPE
  | RESULT_UNSUPPORTED_WAV_FORMAT
  | RESULT_UNSUPPORTED_CHANNELS
  | RESULT_UNSUPPORTED_SAMPLE_RATE
  | RESULT_UNSUPPORTED_BITS_PER_SAMPLE
  | RESULT_MISSING_DATA_CHUNK
  deriving DecidableEq, Repr

/-- The decoded audio value `PCMData_WAV` of `wav_to_pcm.hpp`. -/
structure PCMData_WAV where
  pcmData : List Nat
  sampleRate : Nat
  bitsPerSample : Nat
  channels : Nat
  deriving DecidableEq, Repr

/-- `EXPECTED_DATA_POS_START` of `wav_to_pcm.hpp`. -/
def EXPECTED_DATA_POS_START : Nat := 12

/-- `ALLOWED_SAMPLE_RATES` of `wav_to_pcm.hpp`. -/
def ALLOWED_SAMPLE_RATES : List Nat := [44100, 48000, 96000, 192000]

/-- `ALLOWED_CHANNELS` of `wav_to_pcm.hpp`. -/
def ALLOWED_CHANNELS : List Nat := [1, 2]

/-- `ALLOWED_BPS` of `wav_to_pcm.hpp`. -/
def ALLOWED_BPS : List Nat := [16, 24, 32]

/-- `ContainsSampleRate` of `wav_to_pcm.hpp`. -/
def ContainsSampleRate (sr : Nat) : Bool := ALLOWED_SAMPLE_RATES.contains sr

/-- `ContainsChannel` of `wav_to_pcm.hpp`. -/
def ContainsChannel (c : Nat) : Bool := ALLOWED_CHANNELS.contains c

/-- `ContainsBPS` of `wav_to_pcm.hpp`. -/
def ContainsBPS (bps : Nat) : Bool := ALLOWED_BPS.contains bps

/-- Byte values of the literal `RIFF`. -/
def riffMagic : List Nat := [82, 73, 70, 70]

/-- Byte values of the literal `WAVE`. -/
def waveMagic : List Nat := [87, 65, 86, 69]

/-- Byte values of the literal `fmt ` (with trailing space). -/
def fmtMagic : List Nat := [102, 109, 116, 32]

/-- Byte values of the literal `data`. -/
def dataMagic : List Nat := [100, 97, 116, 97]

/-- Bounds-checked read of `n` bytes at offset `off`: `none` models an
out-of-bounds access of the C++ (`memcmp`/`memcpy` past the buffer). -/
def bytesAt (raw : List Nat) (off n : Nat) : Option (List Nat) :=
  if off + n ≤ raw.length then some ((raw.drop off).take n) else none

/-- Little-endian value of a byte list, as `memcpy` into a wider
zero-initialised integer reads it. -/
def leVal (bs : List Nat) : Nat := bs.foldr (fun b acc => b + 256 * acc) 0

/-- The 2-byte little-endian read (`memcpy` into a `u16`). -/
def readU16 (raw : List Nat) (off : Nat) : Option Nat :=
  (bytesAt raw off 2).map leVal

/-- The 4-byte little-endian read (`memcpy` into a `u32`). -/
def readU32 (raw : List Nat) (off : Nat) : Option Nat :=
  (bytesAt raw off 4).map leVal

/-- One step of the `data`-chunk scan loop of `Convert_WAV`
(`for (size_t i = EXPECTED_DATA_POS_START; i + 8 < rawData.size(); ++i)`),
fuelled so that it is structurally recursive.  Returns
`(dataOffset, dataSize)`; `(0, 0)` when the loop ends without a match,
exactly as the zero-initialised locals of the C++. -/
def scanAux (raw : List Nat) : Nat → Nat → Nat × Nat
  | 0, _ => (0, 0)
  | fuel + 1, i =>
    if i + 8 < raw.length then
      if (raw.drop i).take 4 = dataMagic then
        (i + 8, leVal ((raw.drop (i + 4)).take 4))
      else scanAux raw fuel (i + 1)
    else (0, 0)

/-- The `data`-chunk scan of `Convert_WAV`, starting at offset 12.
`raw.length` is enough fuel: the loop body runs at most
`raw.length - 20` times, so the fuel never runs out before the loop
condition `i + 8 < raw.length` fails. -/
def scanData (raw : List Nat) : Nat × Nat :=
  scanAux raw raw.length EXPECTED_DATA_POS_START

/-- The post-read part of `Convert_WAV` (`wav_to_pcm.hpp`, lines
275-361): size checks, magic checks, format-field validation, the
`data`-chunk scan and the payload extraction, on the loaded byte buffer
`raw` with caller output slot `outData`.  `none` models an
out-of-bounds header read (undefined behaviour in the C++). -/
def parseWav (raw : List Nat) (outData : PCMData_WAV) :
    Option (ConvertResult_WAV × PCMData_WAV) :=
  if raw.length = 0 then some (.RESULT_FILE_EMPTY, outData)
  else if raw.length ≤ EXPECTED_DATA_POS_START then
    some (.RESULT_UNSUPPORTED_FILE_SIZE, outData)
  else
    match bytesAt raw 0 4 with
    | none => none
    | some m0 =>
      if m0 = riffMagic then
        match bytesAt raw 8 4 with
        | none => none
        | some m8 =>
          if m8 = waveMagic then
            match bytesAt raw 12 4 with
            | none => none
            | some m12 =>
              if m12 = fmtMagic then
                match readU16 raw 20 with
                | none => none
                | some audioFormat =>
                  if audioFormat = 1 then
                    match readU16 raw 22 with
                    | none => none
                    | some channels =>
                      match readU32 raw 24 with
                      | none => none
                      | some sampleRate =>
                        match readU16 raw 34 with
                        | none => none
                        | some bitsPerSample =>
                          if ContainsSampleRate sampleRate then
                            if ContainsChannel (channels % 256) then
                              if ContainsBPS (bitsPerSample % 256) then
                                if (scanData raw).1 = 0
                                    ∨ (scanData raw).1 ≥ raw.length then
                                  some (.RESULT_MISSING_DATA_CHUNK, outData)
                                else
                                  some (.RESULT_SUCCESS,
                                    { pcmData :=
                                        (raw.drop (scanData raw).1).take
                                          (min raw.length
                                            ((scanData raw).1 + (scanData raw).2)
                                            - (scanData raw).1),
                                      sampleRate := sampleRate,
                                      bitsPerSample := bitsPerSample % 256,
                                      channels := channels % 256 })
                              else some (.RESULT_UNSUPPORTED_BITS_PER_SAMPLE, outData)
                            else some (.RESULT_UNSUPPORTED_CHANNELS, outData)
                          else some (.RESULT_UNSUPPORTED_SAMPLE_RATE, outData)
                  else some (.RESULT_INVALID_FORMAT_TYPE, outData)
              else some (.RESULT_INVALID_FMT_CHUNK, outData)
          else some (.RESULT_INVALID_WAVE_MAGIC, outData)
      else some (.RESULT_INVALID_RIFF_MAGIC, outData)

/-- The `EBUSY` errno value (Linux). -/
def EBUSY : Nat := 16

/-- The `ETXTBSY` errno value (Linux). -/
def ETXTBSY : Nat := 26

/-- Abstraction of the filesystem facts `Convert_WAV` queries about an
existing path: regular-file status, extension, read permission (any of
owner/group/others), the open failure flag with its errno, and the
byte content the full-file read yields. -/
structure FSFile where
  isRegular : Bool
  hasExtension : Bool
  extensionIsWav : Bool
  readable : Bool
  openFailed : Bool
  openErrno : Nat
  content : List Nat
  deriving DecidableEq, Repr

/-- An `FSFile` that passes every pre-read check of `Convert_WAV`: a
readable regular `.wav` file that opens cleanly, with content `raw`. -/
def wavFile (raw : List Nat) : FSFile :=
  { isRegular := true
    hasExtension := true
    extensionIsWav := true
    readable := true
    openFailed := false
    openErrno := 0
    content := raw }

/-- `Convert_WAV` of `wav_to_pcm.hpp`: the pre-read checks (lines
231-270) followed by `parseWav`.  `file = none` models a path that does
not exist.  The second component of the result is the value the
caller's output slot holds after the call. -/
def Convert_WAV (file : Option FSFile) (outData : PCMData_WAV) :
    Option (ConvertResult_WAV × PCMData_WAV) :=
  match file with
  | none => some (.RESULT_FILE_NOT_FOUND, outData)
  | some f =>
    if !f.isRegular || !f.hasExtension || !f.extensionIsWav then
      some (.RESULT_INVALID_EXTENSION, outData)
    else if !f.readable then
      some (.RESULT_UNAUTHORIZED_READ, outData)
    else if f.openFailed && (f.openErrno != 0) then
      if f.openErrno == EBUSY || f.openErrno == ETXTBSY then
        some (.RESULT_FILE_LOCKED, outData)
      else
        some (.RESULT_UNKNOWN_READ_ERROR, outData)
    else parseWav f.content outData

/-- A default value for the caller's output slot. -/
def pcmDefault : PCMData_WAV :=
  { pcmData := [], sampleRate := 0, bitsPerSample := 0, channels := 0 }

/-- Little-endian 4-byte encoding of a value, for building test WAV
images. -/
def le32 (v : Nat) : List Nat :=
  [v % 256, v / 256 % 256, v / 65536 % 256, v / 16777216 % 256]

/-- The canonical minimal PCM WAV header for a payload of `n` bytes:
`RIFF`, chunk size `36 + n`, `WAVE`, `fmt `, sub-chunk size 16,
audio format 1, 2 channels, sample rate 44100, byte rate 176400,
block align 4, 16 bits per sample, `data`, declared data size `n`. -/
def wavHeader (n : Nat) : List Nat :=
  [82, 73, 70, 70] ++ le32 (36 + n) ++
    [87, 65, 86, 69,
     102, 109, 116, 32,
     16, 0, 0, 0,
     1, 0,
     2, 0,
     68, 172, 0, 0,
     16, 177, 2, 0,
     4, 0,
     16, 0,
     100, 97, 116, 97] ++ le32 n

/-- A complete minimal WAV image: canonical header followed by the
payload, with the declared data size equal to the payload length. -/
def mkWav (payload : List Nat) : List Nat :=
  wavHeader payload.length ++ payload

/-- A WAV image whose `data` chunk declares 100 bytes but whose file
holds only the 5 payload bytes `[1, 2, 3, 4, 5]` after the data
offset 44 (49 bytes in total). -/
def truncWav : List Nat :=
  [82, 73, 70, 70, 141, 0, 0, 0, 87, 65, 86, 69,
   102, 109, 116, 32, 16, 0, 0, 0, 1, 0, 2, 0,
   68, 172, 0, 0, 16, 177, 2, 0, 4, 0, 16, 0,
   100, 97, 116, 97, 100, 0, 0, 0, 1, 2, 3, 4, 5]

/-- A 36-byte image with valid magics and format type 1 whose
sample rate (22050), channel count (0) and bit depth (0) are all
outside their allow-lists. -/
def wavBadAll : List Nat :=
  [82, 73, 70, 70, 0, 0, 0, 0, 87, 65, 86, 69,
   102, 109, 116, 32, 16, 0, 0, 0, 1, 0, 0, 0,
   34, 86, 0, 0, 0, 0, 0, 0, 0, 0, 0, 0]

/-- A 36-byte image with valid magics, format type 1 and an allowed
sample rate (44100), but channel count 0 and bit depth 0 both outside
their allow-lists. -/
def wavBadChBps : List Nat :=
  [82, 73, 70, 70, 0, 0, 0, 0, 87, 65, 86, 69,
   102, 109, 116, 32, 16, 0, 0, 0, 1, 0, 0, 0,
   68, 172, 0, 0, 0, 0, 0, 0, 0, 0, 0, 0]

/-- A 36-byte image with valid magics, format type 1, an allowed
sample rate (44100) and channel count (2), but bit depth 0 outside its
allow-list. -/
def wavBadBps : List Nat :=
  [82, 73, 70, 70, 0, 0, 0, 0, 87, 65, 86, 69,
   102, 109, 116, 32, 16, 0, 0, 0, 1, 0, 2, 0,
   68, 172, 0, 0, 0, 0, 0, 0, 0, 0, 0, 0]

/-- A 44-byte image with fully valid header and format fields but no
`data` literal anywhere (`xxxx` where the chunk marker would sit). -/
def noDataWav : List Nat :=
  [82, 73, 70, 70, 0, 0, 0, 0, 87, 65, 86, 69,
   102, 109, 116, 32, 16, 0, 0, 0, 1, 0, 2, 0,
   68, 172, 0, 0, 16, 177, 2, 0, 4, 0, 16, 0,
   120, 120, 120, 120, 0, 0, 0, 0]

/-- A 22-byte image with valid magics whose audio-format field holds 3
(IEEE float). -/
def fmt3Wav : List Nat :=
  [82, 73, 70, 70, 0, 0, 0, 0, 87, 65, 86, 69,
   102, 109, 116, 32, 16, 0, 0, 0, 3, 0]

/-- A 13-byte image that passes the minimum-size check and the `RIFF`
and `WAVE` magic comparisons; the 4-byte `fmt ` comparison at offset
12 then reads 3 bytes past the end of the buffer. -/
def oobWav : List Nat :=
  [82, 73, 70, 70, 0, 0, 0, 0, 87, 65, 86, 69, 0]

end KalaHeaders


namespace KalaHeaders

theorem bytesAt_pos (raw : List Nat) (off n : Nat) (h : off + n ≤ raw.length) :
    bytesAt raw off n = some ((raw.drop off).take n) := by
  unfold bytesAt
  rw [if_pos h]

theorem bytesAt_le (raw : List Nat) (off n : Nat) (bs : List Nat)
    (h : bytesAt raw off n = some bs) : off + n ≤ raw.length := by
  unfold bytesAt at h
  by_cases hc : off + n ≤ raw.length
  · exact hc
  · rw [if_neg hc] at h
    exact absurd h (by simp)

theorem scanAux_found (raw : List Nat) (fuel : Nat) :
    ∀ i m, i ≤ m → m + 8 < raw.length →
      (∀ j, i ≤ j → j < m → (raw.drop j).take 4 ≠ dataMagic) →
      (raw.drop m).take 4 = dataMagic → m - i < fuel →
      scanAux raw fuel i = (m + 8, leVal ((raw.drop (m + 4)).take 4)) := by
  induction fuel with
  | zero => intro i m _ _ _ _ hf; exact absurd hf (by omega)
  | succ fuel ih =>
    intro i m him hm hnone hmatch hf
    rcases eq_or_lt_of_le him with heq | hlt
    · subst heq
      simp only [scanAux]
      rw [if_pos hm, if_pos hmatch]
    · simp only [scanAux]
      rw [if_pos (by omega), if_neg (hnone i le_rfl hlt)]
      exact ih (i + 1) m hlt hm (fun j hj1 hj2 => hnone j (by omega) hj2) hmatch (by omega)

theorem scanAux_none (raw : List Nat) (fuel : Nat) :
    ∀ i, (∀ j, i ≤ j → j + 8 < raw.length → (raw.drop j).take 4 ≠ dataMagic) →
      scanAux raw fuel i = (0, 0) := by
  induction fuel with
  | zero => intro i _; rfl
  | succ fuel ih =>
    intro i hnone
    simp only [scanAux]
    by_cases h : i + 8 < raw.length
    · rw [if_pos h, if_neg (hnone i le_rfl h)]
      exact ih (i + 1) fun j hj1 hj2 => hnone j (by omega) hj2
    · rw [if_neg h]

theorem scanAux_fst_lt (raw : List Nat) (fuel : Nat) :
    ∀ i, (scanAux raw fuel i).1 ≠ 0 → (scanAux raw fuel i).1 < raw.length := by
  induction fuel with
  | zero => intro i h; exact absurd rfl h
  | succ fuel ih =>
    intro i h
    simp only [scanAux] at h ⊢
    by_cases hc : i + 8 < raw.length
    · by_cases hm : (raw.drop i).take 4 = dataMagic
      · rw [if_pos hc, if_pos hm] at h ⊢
        exact hc
      · rw [if_pos hc, if_neg hm] at h ⊢
        exact ih (i + 1) h
    · rw [if_neg hc] at h
      exact absurd rfl h

theorem scanData_fst_lt (raw : List Nat) (h : (scanData raw).1 ≠ 0) :
    (scanData raw).1 < raw.length :=
  scanAux_fst_lt raw raw.length EXPECTED_DATA_POS_START h

theorem le32_leVal (v : Nat) : leVal (le32 v) = v % 4294967296 := by
  simp only [le32, leVal, List.foldr]
  omega

theorem mkWav_length (p : List Nat) : (mkWav p).length = 44 + p.length := by
  simp [mkWav, wavHeader, le32]
  omega

theorem scanData_mkWav (p : List Nat) (h1 : 1 ≤ p.length) :
    scanData (mkWav p) = (44, p.length % 4294967296) := by
  have hlen := mkWav_length p
  have h36 : ((mkWav p).drop 36).take 4 = dataMagic := rfl
  have hfound := scanAux_found (mkWav p) (mkWav p).length 12 36 (by omega)
    (by omega)
    (fun j hj1 hj2 => by interval_cases j <;> exact of_decide_eq_false rfl)
    h36 (by omega)
  unfold scanData EXPECTED_DATA_POS_START
  rw [hfound]
  have h40 : ((mkWav p).drop (36 + 4)).take 4 = le32 p.length := rfl
  rw [h40, le32_leVal]

end KalaHeaders

namespace KalaHeaders

theorem Convert_wavFile (raw : List Nat) (out : PCMData_WAV) :
    Convert_WAV (some (wavFile raw)) out = parseWav raw out := by
  simp [Convert_WAV, wavFile]

theorem parseWav_valid (raw : List Nat) (out : PCMData_WAV) (ch sr bps : Nat)
    (h0 : bytesAt raw 0 4 = some riffMagic)
    (h8 : bytesAt raw 8 4 = some waveMagic)
    (h12 : bytesAt raw 12 4 = some fmtMagic)
    (h20 : readU16 raw 20 = some 1)
    (h22 : readU16 raw 22 = some ch)
    (h24 : readU32 raw 24 = some sr)
    (h34 : readU16 raw 34 = some bps)
    (hsr : ContainsSampleRate sr = true)
    (hch : ContainsChannel (ch % 256) = true)
    (hbps : ContainsBPS (bps % 256) = true) :
    parseWav raw out =
      if (scanData raw).1 = 0 ∨ (scanData raw).1 ≥ raw.length then
        some (.RESULT_MISSING_DATA_CHUNK, out)
      else
        some (.RESULT_SUCCESS,
          { pcmData := (raw.drop (scanData raw).1).take
              (min raw.length ((scanData raw).1 + (scanData raw).2)
                - (scanData raw).1),
            sampleRate := sr,
            bitsPerSample := bps % 256,
            channels := ch % 256 }) := by
  have hlen : 12 + 4 ≤ raw.length := bytesAt_le raw 12 4 _ h12
  have hne : ¬ raw.length = 0 := by omega
  have hgt : ¬ raw.length ≤ EXPECTED_DATA_POS_START := by
    unfold EXPECTED_DATA_POS_START
    omega
  unfold parseWav
  rw [if_neg hne, if_neg hgt, h0, h8, h12, h20, h22, h24, h34]
  simp only [if_pos rfl, hsr, hch, hbps, if_true]

end KalaHeaders

namespace KalaHeaders

/-- C1 (amended): for a minimal PCM WAV image — canonical header with
audio format 1, 2 channels, sample rate 44100, 16 bits per sample, a
`data` marker declaring size `N`, followed by the `N`-byte payload —
with `1 ≤ N` (and `N < 2^32`, forced by the 4-byte declared-size
field), `Convert_WAV` succeeds and the output holds exactly the `N`
payload bytes with metadata 44100 / 16 / 2.  For `N = 0` the scan loop
never reaches the `data` marker, see the counterexample. -/
theorem c1_minimal_wav_success (p : List Nat) (out : PCMData_WAV)
    (h1 : 1 ≤ p.length) (h32 : p.length < 4294967296) :
    Convert_WAV (some (wavFile (mkWav p))) out =
      some (.RESULT_SUCCESS,
        { pcmData := p, sampleRate := 44100, bitsPerSample := 16, channels := 2 }) := by
  have hlen := mkWav_length p
  have h0 : bytesAt (mkWav p) 0 4 = some riffMagic := by
    rw [bytesAt_pos _ _ _ (by omega)]
    rfl
  have h8 : bytesAt (mkWav p) 8 4 = some waveMagic := by
    rw [bytesAt_pos _ _ _ (by omega)]
    rfl
  have h12 : bytesAt (mkWav p) 12 4 = some fmtMagic := by
    rw [bytesAt_pos _ _ _ (by omega)]
    rfl
  have h20 : readU16 (mkWav p) 20 = some 1 := by
    have hb : ((mkWav p).drop 20).take 2 = [1, 0] := rfl
    unfold readU16
    rw [bytesAt_pos _ _ _ (by omega), hb]
    rfl
  have h22 : readU16 (mkWav p) 22 = some 2 := by
    have hb : ((mkWav p).drop 22).take 2 = [2, 0] := rfl
    unfold readU16
    rw [bytesAt_pos _ _ _ (by omega), hb]
    rfl
  have h24 : readU32 (mkWav p) 24 = some 44100 := by
    have hb : ((mkWav p).drop 24).take 4 = [68, 172, 0, 0] := rfl
    unfold readU32
    rw [bytesAt_pos _ _ _ (by omega), hb]
    rfl
  have h34 : readU16 (mkWav p) 34 = some 16 := by
    have hb : ((mkWav p).drop 34).take 2 = [16, 0] := rfl
    unfold readU16
    rw [bytesAt_pos _ _ _ (by omega), hb]
    rfl
  rw [Convert_wavFile,
    parseWav_valid (mkWav p) out 2 44100 16 h0 h8 h12 h20 h22 h24 h34 rfl rfl rfl,
    scanData_mkWav p h1, Nat.mod_eq_of_lt h32, hlen]
  dsimp only
  rw [if_neg (by omega)]
  have hdrop : (mkWav p).drop 44 = p := rfl
  simp [hdrop, Nat.min_self, Nat.add_sub_cancel_left, List.take_length]

/-- C1 counterexample: the same minimal image with declared data size
`N = 0` and no payload bytes is rejected with
`RESULT_MISSING_DATA_CHUNK` — the scan loop condition
`i + 8 < size` stops at `i = 35`, one position before the `data`
marker of the 44-byte file — so the claim as stated (success for every
`N`, zero included) is false at `N = 0`. -/
theorem c1_counterexample :
    Convert_WAV (some (wavFile (mkWav []))) pcmDefault =
      some (.RESULT_MISSING_DATA_CHUNK, pcmDefault) ∧
    ConvertResult_WAV.RESULT_MISSING_DATA_CHUNK ≠ ConvertResult_WAV.RESULT_SUCCESS := by
  decide

/-- C1 witness: the amended claim applied at the one-byte payload `[7]`. -/
theorem c1_witness :
    1 ≤ ([7] : List Nat).length ∧
    Convert_WAV (some (wavFile (mkWav [7]))) pcmDefault =
      some (.RESULT_SUCCESS,
        { pcmData := [7], sampleRate := 44100, bitsPerSample := 16, channels := 2 }) :=
  ⟨by decide, c1_minimal_wav_success [7] pcmDefault (by decide) (by decide)⟩

end KalaHeaders

namespace KalaHeaders

/-- C2: whenever decoding reaches payload extraction (valid header
fields with sample rate, channels and bit depth all in their
allow-lists, and the scan found a `data` marker) and the declared
data-chunk size exceeds the bytes remaining after the data offset,
`Convert_WAV` still succeeds, the extracted payload length is exactly
`min (file size) (data offset + declared size) - data offset`, and it
never exceeds the bytes physically present from the data offset on. -/
theorem c2_declared_size_clamped (raw : List Nat) (out : PCMData_WAV)
    (ch sr bps : Nat)
    (h0 : bytesAt raw 0 4 = some riffMagic)
    (h8 : bytesAt raw 8 4 = some waveMagic)
    (h12 : bytesAt raw 12 4 = some fmtMagic)
    (h20 : readU16 raw 20 = some 1)
    (h22 : readU16 raw 22 = some ch)
    (h24 : readU32 raw 24 = some sr)
    (h34 : readU16 raw 34 = some bps)
    (hsr : ContainsSampleRate sr = true)
    (hch : ContainsChannel (ch % 256) = true)
    (hbps : ContainsBPS (bps % 256) = true)
    (hoff : (scanData raw).1 ≠ 0)
    (hsz : raw.length - (scanData raw).1 < (scanData raw).2) :
    ∃ pd, Convert_WAV (some (wavFile raw)) out = some (.RESULT_SUCCESS, pd) ∧
      pd.pcmData.length =
        min raw.length ((scanData raw).1 + (scanData raw).2) - (scanData raw).1 ∧
      pd.pcmData.length ≤ raw.length - (scanData raw).1 := by
  have hlt := scanData_fst_lt raw hoff
  rw [Convert_wavFile,
    parseWav_valid raw out ch sr bps h0 h8 h12 h20 h22 h24 h34 hsr hch hbps]
  rw [if_neg (by omega)]
  refine ⟨_, rfl, ?_, ?_⟩
  · simp only [List.length_take, List.length_drop]
    omega
  · simp only [List.length_take, List.length_drop]
    omega

/-- C2 witness: `truncWav` declares 100 data bytes but holds only 5;
decoding succeeds with exactly the 5 remaining bytes. -/
theorem c2_witness :
    truncWav.length - (scanData truncWav).1 < (scanData truncWav).2 ∧
    ∃ pd, Convert_WAV (some (wavFile truncWav)) pcmDefault =
        some (.RESULT_SUCCESS, pd) ∧
      pd.pcmData.length =
        min truncWav.length ((scanData truncWav).1 + (scanData truncWav).2)
          - (scanData truncWav).1 ∧
      pd.pcmData.length ≤ truncWav.length - (scanData truncWav).1 :=
  ⟨by decide,
   c2_declared_size_clamped truncWav pcmDefault 2 44100 16
     (by decide) (by decide) (by decide) (by decide) (by decide) (by decide)
     (by decide) (by decide) (by decide) (by decide) (by decide) (by decide)⟩

/-- C3: a readable regular `.wav` file that opens cleanly and holds
fewer than 13 bytes is rejected with `RESULT_FILE_EMPTY` when empty
and `RESULT_UNSUPPORTED_FILE_SIZE` otherwise; the decode result is
`some _`, i.e. no out-of-bounds buffer access is reached on the way
(every such access would make the model return `none`), and the
output slot is unchanged. -/
theorem c3_short_file_rejected (f : FSFile) (out : PCMData_WAV)
    (hreg : f.isRegular = true) (hext : f.hasExtension = true)
    (hwav : f.extensionIsWav = true) (hread : f.readable = true)
    (hopen : f.openFailed = false)
    (hshort : f.content.length < 13) :
    Convert_WAV (some f) out =
      some (if f.content.length = 0 then ConvertResult_WAV.RESULT_FILE_EMPTY
        else ConvertResult_WAV.RESULT_UNSUPPORTED_FILE_SIZE, out) := by
  have hconv : Convert_WAV (some f) out = parseWav f.content out := by
    simp [Convert_WAV, hreg, hext, hwav, hread, hopen]
  rw [hconv]
  unfold parseWav
  by_cases h : f.content.length = 0
  · rw [if_pos h, if_pos h]
  · rw [if_neg h, if_neg h,
      if_pos (by unfold EXPECTED_DATA_POS_START; omega)]

/-- C3 witness: a 3-byte `.wav` file is rejected with
`RESULT_UNSUPPORTED_FILE_SIZE`. -/
theorem c3_witness :
    ([1, 2, 3] : List Nat).length < 13 ∧
    Convert_WAV (some (wavFile [1, 2, 3])) pcmDefault =
      some (.RESULT_UNSUPPORTED_FILE_SIZE, pcmDefault) := by
  refine ⟨by decide, ?_⟩
  have h := c3_short_file_rejected (wavFile [1, 2, 3]) pcmDefault
    rfl rfl rfl rfl rfl (by decide)
  simpa using h

end KalaHeaders

namespace KalaHeaders

/-- C4 counterexample: a path that exists but is not a regular file
(here with a `.wav` name, readable) is rejected with
`RESULT_INVALID_EXTENSION`, not `RESULT_FILE_NOT_FOUND`: the
`exists()` test passes, and the non-regular-file test shares its early
return with the extension test (`wav_to_pcm.hpp`, lines 232-237). -/
theorem c4_counterexample :
    Convert_WAV
      (some { isRegular := false, hasExtension := true, extensionIsWav := true,
              readable := true, openFailed := false, openErrno := 0, content := [] })
      pcmDefault
      = some (.RESULT_INVALID_EXTENSION, pcmDefault) ∧
    ConvertResult_WAV.RESULT_INVALID_EXTENSION ≠
      ConvertResult_WAV.RESULT_FILE_NOT_FOUND := by
  decide

/-- C4 (amended): for every path that exists on the filesystem but
does not resolve to a regular file, `Convert_WAV` fails with the
invalid-extension outcome — not file-not-found — regardless of the
remaining file attributes. -/
theorem c4_not_regular_invalid_extension (f : FSFile) (out : PCMData_WAV)
    (h : f.isRegular = false) :
    Convert_WAV (some f) out = some (.RESULT_INVALID_EXTENSION, out) := by
  simp [Convert_WAV, h]

/-- C4 witness: the amended claim applied to a concrete non-regular
readable entry. -/
theorem c4_witness :
    ({ isRegular := false, hasExtension := false, extensionIsWav := false,
       readable := true, openFailed := false, openErrno := 0,
       content := [1, 2] } : FSFile).isRegular = false ∧
    Convert_WAV
      (some { isRegular := false, hasExtension := false, extensionIsWav := false,
              readable := true, openFailed := false, openErrno := 0,
              content := [1, 2] })
      pcmDefault
      = some (.RESULT_INVALID_EXTENSION, pcmDefault) :=
  ⟨rfl, c4_not_regular_invalid_extension _ pcmDefault rfl⟩

/-- C5 counterexample: a readable 5-byte `.wav` file of zero bytes has
bytes [0,4) ≠ `RIFF`, yet decoding returns
`RESULT_UNSUPPORTED_FILE_SIZE`, not `RESULT_INVALID_RIFF_MAGIC`: the
size checks run before the magic comparison, so the claim's "regardless
of remaining content (including its length)" fails for short files. -/
theorem c5_counterexample :
    ([0, 0, 0, 0, 0] : List Nat).take 4 ≠ riffMagic ∧
    Convert_WAV (some (wavFile [0, 0, 0, 0, 0])) pcmDefault
      = some (.RESULT_UNSUPPORTED_FILE_SIZE, pcmDefault) ∧
    ConvertResult_WAV.RESULT_UNSUPPORTED_FILE_SIZE ≠
      ConvertResult_WAV.RESULT_INVALID_RIFF_MAGIC := by
  decide

/-- C5 (amended): for every loaded byte sequence longer than 12 bytes
whose bytes [0,4) differ from the literal `RIFF`, `Convert_WAV`
returns `RESULT_INVALID_RIFF_MAGIC`, regardless of the remaining
content. -/
theorem c5_bad_riff_magic (raw : List Nat) (out : PCMData_WAV)
    (hlen : 12 < raw.length) (hriff : raw.take 4 ≠ riffMagic) :
    Convert_WAV (some (wavFile raw)) out =
      some (.RESULT_INVALID_RIFF_MAGIC, out) := by
  rw [Convert_wavFile]
  unfold parseWav
  rw [if_neg (by omega), if_neg (by unfold EXPECTED_DATA_POS_START; omega),
    bytesAt_pos raw 0 4 (by omega)]
  simp [List.drop_zero, hriff]

/-- C5 witness: the amended claim applied to a 13-byte all-zero file. -/
theorem c5_witness :
    12 < ([0, 0, 0, 0, 0, 0, 0, 0, 0, 0, 0, 0, 0] : List Nat).length ∧
    Convert_WAV (some (wavFile [0, 0, 0, 0, 0, 0, 0, 0, 0, 0, 0, 0, 0])) pcmDefault
      = some (.RESULT_INVALID_RIFF_MAGIC, pcmDefault) :=
  ⟨by decide,
   c5_bad_riff_magic [0, 0, 0, 0, 0, 0, 0, 0, 0, 0, 0, 0, 0] pcmDefault
     (by decide) (by decide)⟩

end KalaHeaders

namespace KalaHeaders

/-- C6: when the header magics and format-type check pass and all the
format fields are readable, the error priority among the allow-list
checks is fixed: an unsupported sample rate is reported first
(whatever the other two fields hold), then unsupported channels, then
unsupported bits per sample. -/
theorem c6_error_priority (raw : List Nat) (out : PCMData_WAV)
    (ch sr bps : Nat)
    (h0 : bytesAt raw 0 4 = some riffMagic)
    (h8 : bytesAt raw 8 4 = some waveMagic)
    (h12 : bytesAt raw 12 4 = some fmtMagic)
    (h20 : readU16 raw 20 = some 1)
    (h22 : readU16 raw 22 = some ch)
    (h24 : readU32 raw 24 = some sr)
    (h34 : readU16 raw 34 = some bps) :
    (ContainsSampleRate sr = false →
      Convert_WAV (some (wavFile raw)) out =
        some (.RESULT_UNSUPPORTED_SAMPLE_RATE, out)) ∧
    (ContainsSampleRate sr = true → ContainsChannel (ch % 256) = false →
      Convert_WAV (some (wavFile raw)) out =
        some (.RESULT_UNSUPPORTED_CHANNELS, out)) ∧
    (ContainsSampleRate sr = true → ContainsChannel (ch % 256) = true →
      ContainsBPS (bps % 256) = false →
      Convert_WAV (some (wavFile raw)) out =
        some (.RESULT_UNSUPPORTED_BITS_PER_SAMPLE, out)) := by
  have hlen : 12 + 4 ≤ raw.length := bytesAt_le raw 12 4 _ h12
  refine ⟨fun hsr => ?_, fun hsr hch => ?_, fun hsr hch hbps => ?_⟩
  · rw [Convert_wavFile]
    unfold parseWav
    rw [if_neg (by omega), if_neg (by unfold EXPECTED_DATA_POS_START; omega),
      h0, h8, h12, h20, h22, h24, h34]
    simp [hsr]
  · rw [Convert_wavFile]
    unfold parseWav
    rw [if_neg (by omega), if_neg (by unfold EXPECTED_DATA_POS_START; omega),
      h0, h8, h12, h20, h22, h24, h34]
    simp [hsr, hch]
  · rw [Convert_wavFile]
    unfold parseWav
    rw [if_neg (by omega), if_neg (by unfold EXPECTED_DATA_POS_START; omega),
      h0, h8, h12, h20, h22, h24, h34]
    simp [hsr, hch, hbps]

/-- C6 witness: the three priority branches applied to concrete
images — all three fields invalid reports the sample rate; sample rate
valid with invalid channels and bit depth reports the channels; only
the bit depth invalid reports the bit depth. -/
theorem c6_witness :
    Convert_WAV (some (wavFile wavBadAll)) pcmDefault =
      some (.RESULT_UNSUPPORTED_SAMPLE_RATE, pcmDefault) ∧
    Convert_WAV (some (wavFile wavBadChBps)) pcmDefault =
      some (.RESULT_UNSUPPORTED_CHANNELS, pcmDefault) ∧
    Convert_WAV (some (wavFile wavBadBps)) pcmDefault =
      some (.RESULT_UNSUPPORTED_BITS_PER_SAMPLE, pcmDefault) :=
  ⟨(c6_error_priority wavBadAll pcmDefault 0 22050 0
      (by decide) (by decide) (by decide) (by decide) (by decide) (by decide)
      (by decide)).1 (by decide),
   (c6_error_priority wavBadChBps pcmDefault 0 44100 0
      (by decide) (by decide) (by decide) (by decide) (by decide) (by decide)
      (by decide)).2.1 (by decide) (by decide),
   (c6_error_priority wavBadBps pcmDefault 2 44100 0
      (by decide) (by decide) (by decide) (by decide) (by decide) (by decide)
      (by decide)).2.2 (by decide) (by decide) (by decide)⟩

/-- C7: when every header and format validation passes, decoding
returns `RESULT_MISSING_DATA_CHUNK` as soon as either no scanned
position from offset 12 on (positions examined only while `i + 8` is
below the buffer size) carries the literal `data`, or the scan's
resulting data offset is zero or at/past the end of the buffer. -/
theorem c7_missing_data_chunk (raw : List Nat) (out : PCMData_WAV)
    (ch sr bps : Nat)
    (h0 : bytesAt raw 0 4 = some riffMagic)
    (h8 : bytesAt raw 8 4 = some waveMagic)
    (h12 : bytesAt raw 12 4 = some fmtMagic)
    (h20 : readU16 raw 20 = some 1)
    (h22 : readU16 raw 22 = some ch)
    (h24 : readU32 raw 24 = some sr)
    (h34 : readU16 raw 34 = some bps)
    (hsr : ContainsSampleRate sr = true)
    (hch : ContainsChannel (ch % 256) = true)
    (hbps : ContainsBPS (bps % 256) = true)
    (hmiss : (∀ i, 12 ≤ i → i + 8 < raw.length →
        (raw.drop i).take 4 ≠ dataMagic)
      ∨ (scanData raw).1 = 0 ∨ raw.length ≤ (scanData raw).1) :
    Convert_WAV (some (wavFile raw)) out =
      some (.RESULT_MISSING_DATA_CHUNK, out) := by
  rw [Convert_wavFile,
    parseWav_valid raw out ch sr bps h0 h8 h12 h20 h22 h24 h34 hsr hch hbps]
  rcases hmiss with h | h | h
  · rw [if_pos]
    left
    unfold scanData
    rw [scanAux_none raw raw.length EXPECTED_DATA_POS_START
      (fun j hj1 hj2 => h j hj1 hj2)]
  · exact if_pos (Or.inl h)
  · exact if_pos (Or.inr h)

/-- C7 witness: `noDataWav` has a fully valid header but no `data`
literal anywhere, and is rejected with `RESULT_MISSING_DATA_CHUNK`. -/
theorem c7_witness :
    (scanData noDataWav).1 = 0 ∧
    Convert_WAV (some (wavFile noDataWav)) pcmDefault =
      some (.RESULT_MISSING_DATA_CHUNK, pcmDefault) :=
  ⟨by decide,
   c7_missing_data_chunk noDataWav pcmDefault 2 44100 16
     (by decide) (by decide) (by decide) (by decide) (by decide) (by decide)
     (by decide) (by decide) (by decide) (by decide)
     (Or.inr (Or.inl (by decide)))⟩

end KalaHeaders

namespace KalaHeaders

set_option maxHeartbeats 1000000 in
theorem parseWav_frame (raw : List Nat) (out : PCMData_WAV)
    (r : ConvertResult_WAV) (o : PCMData_WAV)
    (h : parseWav raw out = some (r, o))
    (hr : r ≠ ConvertResult_WAV.RESULT_SUCCESS) : o = out := by
  unfold parseWav at h
  repeat' split at h
  all_goals
    first
      | exact Option.noConfusion h
      | (rw [Option.some.injEq, Prod.mk.injEq] at h
         first
           | exact h.2.symm
           | exact absurd h.1.symm hr)

set_option maxHeartbeats 1000000 in
theorem parseWav_no_unsupported_wav_format (raw : List Nat)
    (out : PCMData_WAV) (r : ConvertResult_WAV) (o : PCMData_WAV)
    (h : parseWav raw out = some (r, o)) :
    r ≠ ConvertResult_WAV.RESULT_UNSUPPORTED_WAV_FORMAT := by
  unfold parseWav at h
  repeat' split at h
  all_goals
    first
      | exact Option.noConfusion h
      | (rw [Option.some.injEq, Prod.mk.injEq] at h
         rw [← h.1]
         decide)

end KalaHeaders

namespace KalaHeaders

/-- C8: whenever `Convert_WAV` returns an outcome other than
`RESULT_SUCCESS`, the caller's output slot holds exactly the value it
held before the call; only the success path assigns it. -/
theorem c8_failure_leaves_out_untouched (file : Option FSFile)
    (out : PCMData_WAV) (r : ConvertResult_WAV) (o : PCMData_WAV)
    (h : Convert_WAV file out = some (r, o))
    (hr : r ≠ ConvertResult_WAV.RESULT_SUCCESS) : o = out := by
  cases file with
  | none =>
    rw [Convert_WAV, Option.some.injEq, Prod.mk.injEq] at h
    exact h.2.symm
  | some f =>
    unfold Convert_WAV at h
    repeat' split at h
    all_goals
      first
        | exact parseWav_frame _ _ _ _ h hr
        | (rw [Option.some.injEq, Prod.mk.injEq] at h
           exact h.2.symm)

/-- C8 witness: a failing call (non-existing path) applied to the
theorem: the slot keeps its prior value `pcmDefault`. -/
theorem c8_witness :
    ∃ r o, Convert_WAV none pcmDefault = some (r, o) ∧
      r ≠ ConvertResult_WAV.RESULT_SUCCESS ∧ o = pcmDefault :=
  ⟨.RESULT_FILE_NOT_FOUND, pcmDefault, rfl, by decide,
   c8_failure_leaves_out_untouched none pcmDefault _ _ rfl (by decide)⟩

/-- C9: `Convert_WAV` never returns `RESULT_UNSUPPORTED_WAV_FORMAT`
for any input, and any readable `.wav` file with valid magics whose
audio-format code differs from 1 (IEEE float 3 included) is rejected
with `RESULT_INVALID_FORMAT_TYPE`, leaving the reserved outcome
unreachable. -/
theorem c9_unsupported_wav_format_unreachable :
    (∀ (file : Option FSFile) (out : PCMData_WAV)
        (r : ConvertResult_WAV) (o : PCMData_WAV),
      Convert_WAV file out = some (r, o) →
        r ≠ ConvertResult_WAV.RESULT_UNSUPPORTED_WAV_FORMAT) ∧
    (∀ (raw : List Nat) (out : PCMData_WAV) (af : Nat),
      bytesAt raw 0 4 = some riffMagic →
      bytesAt raw 8 4 = some waveMagic →
      bytesAt raw 12 4 = some fmtMagic →
      readU16 raw 20 = some af → af ≠ 1 →
      Convert_WAV (some (wavFile raw)) out =
        some (.RESULT_INVALID_FORMAT_TYPE, out)) := by
  constructor
  · intro file out r o h
    cases file with
    | none =>
      rw [Convert_WAV, Option.some.injEq, Prod.mk.injEq] at h
      rw [← h.1]
      decide
    | some f =>
      unfold Convert_WAV at h
      repeat' split at h
      all_goals
        first
          | exact parseWav_no_unsupported_wav_format _ _ _ _ h
          | (rw [Option.some.injEq, Prod.mk.injEq] at h
             rw [← h.1]
             decide)
  · intro raw out af h0 h8 h12 h20 haf
    have hlen : 12 + 4 ≤ raw.length := bytesAt_le raw 12 4 _ h12
    rw [Convert_wavFile]
    unfold parseWav
    rw [if_neg (by omega), if_neg (by unfold EXPECTED_DATA_POS_START; omega),
      h0, h8, h12, h20]
    simp [haf]

/-- C9 witness: the theorem applied at a non-existing path (first
part) and at `fmt3Wav`, whose audio-format field holds 3 (second
part). -/
theorem c9_witness :
    ConvertResult_WAV.RESULT_FILE_NOT_FOUND ≠
      ConvertResult_WAV.RESULT_UNSUPPORTED_WAV_FORMAT ∧
    Convert_WAV (some (wavFile fmt3Wav)) pcmDefault =
      some (.RESULT_INVALID_FORMAT_TYPE, pcmDefault) :=
  ⟨c9_unsupported_wav_format_unreachable.1 none pcmDefault
      .RESULT_FILE_NOT_FOUND pcmDefault rfl,
   c9_unsupported_wav_format_unreachable.2 fmt3Wav pcmDefault 3
     (by decide) (by decide) (by decide) (by decide) (by decide)⟩

/-- C10 (the claim fails on the code): `oobWav` is 13 bytes long, so
it passes the minimum-size check (`size > 12`) and the `RIFF` and
`WAVE` comparisons, and the code then runs
`memcmp(rawData.data() + 12, "fmt ", 4)` — a read of bytes [12,16) of
a 13-byte buffer, 3 bytes past its end.  In the model the decode
evaluates to `none`, the out-of-bounds marker, refuting the claim that
every fixed-offset header access on files larger than 12 bytes stays
in bounds. -/
theorem c10_header_read_out_of_bounds :
    12 < oobWav.length ∧
    Convert_WAV (some (wavFile oobWav)) pcmDefault = none := by
  decide

end KalaHeaders
